import Mathlib

/-!
# Verification of the gpCAM acquisition dispatcher and autonomous loop

A shallow embedding of the decision logic of `gpcam/surrogate_model.py` and
`gpcam/autonomous_experimenter.py`, with theorems checking the design
documentation against the code.

Modelling conventions:
* numpy float arrays become lists of rationals; only the array *rank* (ndim)
  is tracked where the code branches on it;
* exceptions become `Except PyError`;
* the external numerical collaborators (scipy's `differential_evolution` and
  `minimize`, the HGDL optimizer, the surrogate engine's posterior queries,
  and scalar math primitives such as `sqrt`, `norm.cdf`, `erf`) are explicitly
  out of scope of the design; they are supplied as oracle parameters giving
  the value the collaborator returns.  What *is* embedded faithfully is every
  line of the repository's own code around those calls.
-/

set_option autoImplicit false

namespace GpCam

/-- A 2-D numpy array of floats, row major. -/
abbrev Mat := List (List ℚ)

/-- Python exceptions raised by the embedded code, by class and message. -/
inductive PyError where
  | nameError (msg : String)
  | valueError (msg : String)
  | typeError (msg : String)
  | keyError (msg : String)
  | indexError (msg : String)
  | exception (msg : String)
deriving DecidableEq, Repr

/-- A numpy value whose rank matters to the code: scalar, 1-D or 2-D. -/
inductive NpArr where
  | scalar (v : ℚ)
  | arr1 (v : List ℚ)
  | arr2 (m : Mat)
deriving DecidableEq, Repr

/-- `np.ndim` of an embedded numpy value. -/
def NpArr.ndim : NpArr → Nat
  | .scalar _ => 0
  | .arr1 _ => 1
  | .arr2 _ => 2

/-- The `x` argument of `evaluate_acquisition_function`: a 1-D position
vector or a 2-D batch of positions.  The code branches on `np.ndim(x)`. -/
inductive XIn where
  | one (v : List ℚ)
  | two (m : Mat)
deriving DecidableEq, Repr

/-- Line 157 of surrogate_model.py: `if np.ndim(x) == 1: x = np.array([x])`.
A 1-D vector is promoted to a single-row 2-D batch; a 2-D batch is kept. -/
def XIn.promote : XIn → Mat
  | .one v => [v]
  | .two m => m

/-- Scalar math primitives used by the built-in acquisition formulas
(`np.sqrt`, `scipy.stats.norm.cdf/pdf`, `math.erf`).  Their numerics are an
external collaborator; the embedding takes them as parameters. -/
structure NumEnv where
  sqrt : ℚ → ℚ
  normCdf : ℚ → ℚ
  normPdf : ℚ → ℚ
  erf : ℚ → ℚ

/-- The surrogate-engine collaborator (`fvgp`/`GPOptimizer` object `gp`).
Each field is the value of the corresponding posterior query that the
acquisition code reads (`["f(x)"]`, `["v(x)"]`, `["df/dx"]`, `["RIE"]`,
`["total correlation"]`), plus the observed values `y_data`. -/
structure GP where
  posterior_mean : Mat → List ℚ
  posterior_variance : Mat → List ℚ
  posterior_mean_grad : Mat → Mat
  gp_rie : Mat → ℚ
  gp_rie_set : Mat → List ℚ
  gp_total_correlation : Mat → ℚ
  y_data : List ℚ

/-- The `args` dict consulted by the `"target probability"` kind; the code
reads keys `"a"` and `"b"` (a missing key is a `KeyError`). -/
structure AcqArgs where
  aVal : Option ℚ
  bVal : Option ℚ
deriving DecidableEq, Repr

/-- The opaque `cost_function_parameters` object, passed through unchanged to
the user cost function. -/
abbrev Params := List ℚ

/-- A user cost function `(origin, x, cost_function_parameters) -> cost`.
The cost value is modelled as a single rational (its array structure is
never inspected by the embedded code, which only divides by it). -/
abbrev CostFn := List ℚ → Mat → Params → ℚ

/-- The `acquisition_function` argument: a user callable or a kind string
(the code tests `callable(acquisition_function)`). -/
inductive AcqFn where
  | callable (f : Mat → GP → List ℚ)
  | kind (s : String)

/-- `np.max` over a 1-D array; empty input raises as in numpy. -/
def npMax (l : List ℚ) : Except PyError ℚ :=
  match l with
  | [] => .error (.valueError "zero-size array to reduction operation maximum")
  | h :: t => .ok (t.foldl max h)

/-- `v.reshape(r, c)` of a flat 1-D array, failing as numpy does when the
element count is not `r * c`. -/
def npReshape (r c : Nat) (l : List ℚ) : Except PyError Mat :=
  if l.length = r * c then
    .ok ((List.range r).map (fun i => (l.drop (i * c)).take c))
  else .error (.valueError "cannot reshape array")

/-- Row-wise `np.linalg.norm(mat, axis = 1)` via the supplied sqrt. -/
def rowNorm (env : NumEnv) (row : List ℚ) : ℚ :=
  env.sqrt ((row.map (fun t => t * t)).sum)

/-- `evaluate_gp_acquisition_function` (surrogate_model.py lines 169-245):
the built-in acquisition kinds, dispatched on the kind string, with the
`x_out is None` branch first and the multi-output branch second.  The
posterior queries come from the `gp` collaborator; array arithmetic is
elementwise over rows of equal length (the surrogate contract guarantees
`len(mean) = len(variance) = len(x)`). -/
def evaluate_gp_acquisition_function (x : Mat) (acquisition_function : String)
    (gp : GP) (env : NumEnv) (number_of_maxima_sought : Option Nat)
    (x_out : Option (List ℚ)) (args : AcqArgs) : Except PyError (List ℚ) :=
  match x_out with
  | none =>
    if acquisition_function = "variance" then
      .ok (gp.posterior_variance x)
    else if acquisition_function = "relative information entropy" then
      .ok [-(gp.gp_rie x)]
    else if acquisition_function = "relative information entropy set" then
      .ok ((gp.gp_rie_set x).map (fun t => -t))
    else if acquisition_function = "ucb" then
      .ok (List.zipWith (fun m v => m + 3 * env.sqrt v)
        (gp.posterior_mean x) (gp.posterior_variance x))
    else if acquisition_function = "lcb" then
      .ok (List.zipWith (fun m v => -(m - 3 * env.sqrt v))
        (gp.posterior_mean x) (gp.posterior_variance x))
    else if acquisition_function = "maximum" then
      .ok (gp.posterior_mean x)
    else if acquisition_function = "gradient" then
      .ok (List.zipWith (fun row v => rowNorm env row * env.sqrt v)
        (gp.posterior_mean_grad x) (gp.posterior_variance x))
    else if acquisition_function = "minimum" then
      .ok ((gp.posterior_mean x).map (fun t => -t))
    else if acquisition_function = "probability of improvement" then
      match npMax gp.y_data with
      | .error e => .error e
      | .ok lastBest =>
        .ok (List.zipWith
          (fun m v => env.normCdf ((m - lastBest) / (env.sqrt v + 1 / 1000000000)))
          (gp.posterior_mean x) (gp.posterior_variance x))
    else if acquisition_function = "total correlation" then
      .ok [-(gp.gp_total_correlation x)]
    else if acquisition_function = "expected improvement" then
      match npMax gp.y_data with
      | .error e => .error e
      | .ok lastBest =>
        .ok (List.zipWith
          (fun m v =>
            let std := env.sqrt v
            let a := max (m - lastBest) 0
            let gamma := a / std
            std * (gamma * env.normCdf gamma + env.normPdf gamma))
          (gp.posterior_mean x) (gp.posterior_variance x))
    else if acquisition_function = "target probability" then
      match args.aVal, args.bVal with
      | some a, some b =>
        .ok (List.zipWith
          (fun m c => 1 / 2 * (env.erf ((b - m) / env.sqrt (2 * c))
            - env.erf ((a - m) / env.sqrt (2 * c))))
          (gp.posterior_mean x) (gp.posterior_variance x))
      | _, _ => .error (.keyError "a")
    else .error (.exception "No valid acquisition function string provided.")
  | some xo =>
    if acquisition_function = "variance" then
      match npReshape x.length xo.length (gp.posterior_variance x) with
      | .error e => .error e
      | .ok rows => .ok (rows.map List.sum)
    else if acquisition_function = "relative information entropy" then
      match number_of_maxima_sought with
      | none => .error (.typeError "NoneType cannot be interpreted as an integer")
      | some k =>
        match npReshape k xo.length x.flatten with
        | .error e => .error e
        | .ok xr => .ok [-(gp.gp_rie xr)]
    else if acquisition_function = "relative information entropy set" then
      match npReshape x.length xo.length ((gp.gp_rie_set x).map (fun t => -t)) with
      | .error e => .error e
      | .ok rows => .ok (rows.map List.sum)
    else if acquisition_function = "total correlation" then
      match number_of_maxima_sought with
      | none => .error (.typeError "NoneType cannot be interpreted as an integer")
      | some k =>
        match npReshape k xo.length x.flatten with
        | .error e => .error e
        | .ok xr => .ok [-(gp.gp_total_correlation xr)]
    else .error (.exception "No valid acquisition function string provided.")

/-- `evaluate_acquisition_function` (surrogate_model.py lines 152-167):
promote a 1-D `x` to a single-row batch, compute the cost (the user cost
function at `(origin, x, cost_function_parameters)` when both a cost
function and an origin are supplied, `1.0` otherwise), then return the
negated goodness divided by the cost — a user callable is evaluated
directly, a kind string through `evaluate_gp_acquisition_function`. -/
def evaluate_acquisition_function (x : XIn) (gp : GP) (env : NumEnv)
    (acquisition_function : AcqFn) (origin : Option (List ℚ))
    (number_of_maxima_sought : Option Nat) (cost_function : Option CostFn)
    (cost_function_parameters : Params) (x_out : Option (List ℚ))
    (args : AcqArgs) : Except PyError (List ℚ) :=
  let x2 := x.promote
  let cost_eval : ℚ :=
    match cost_function, origin with
    | some cf, some o => cf o x2 cost_function_parameters
    | _, _ => 1
  match acquisition_function with
  | .callable f => .ok ((f x2 gp).map (fun t => -t / cost_eval))
  | .kind s =>
    match evaluate_gp_acquisition_function x2 s gp env number_of_maxima_sought
        x_out args with
    | .error e => .error e
    | .ok obj_eval => .ok (obj_eval.map (fun t => -t / cost_eval))

/-! ## The acquisition-optimizer dispatcher -/

/-- The opaque optimization handle (`opt_obj`): `None`, or the HGDL object
created by the hybrid branches. -/
inductive Handle where
  | hgdlHandle
deriving DecidableEq, Repr

/-- Oracle for scipy's `differential_evolution` (an external collaborator):
a population point at which it evaluates the objective (through the
vectorization wrapper), and the `res["x"]` / `res["fun"]` of the solution
it reports. -/
structure DevoOracle where
  probe : Mat
  resX : List ℚ
  resFun : ℚ

/-- One entry of `opt_obj.get_final()` from the HGDL collaborator, holding
`entry["x"]` and `entry["f(x)"]`. -/
structure HgdlEntry where
  x : List ℚ
  fx : ℚ

/-- Oracle for `scipy.optimize.minimize`: the `x`, `fun` and `success`
fields of the `OptimizeResult` it reports. -/
structure MinimizeOracle where
  resX : List ℚ
  resFun : ℚ
  success : Bool
deriving DecidableEq, Repr

set_option linter.unusedVariables false in
/-- `gradient(x, func)` (surrogate_model.py lines 266-273).  The body reads
the names `point` and `function`, but the parameters are named `x` and
`func` and no `point` or `function` exists at module scope, so the very
first statement (`np.zeros((len(point)))`) raises `NameError` on every
call. -/
def gradient (x : List ℚ) (func : List ℚ → Except PyError (List ℚ)) :
    Except PyError (List ℚ) :=
  .error (.nameError "name point is not defined")

/-- `differential_evolution` (surrogate_model.py lines 249-259): runs the
external scipy optimizer on the wrapped objective and returns
`[list(res["x"])], list([res["fun"]])` — by construction a single-row 2-D
position array and a length-1 1-D score array.  The optimizer evaluates the
objective at points of its own choosing (modelled by `o.probe`); an
exception from the objective propagates. -/
def differential_evolution (func : Mat → Except PyError (List ℚ))
    (o : DevoOracle) : Except PyError (NpArr × NpArr) :=
  match func o.probe with
  | .error e => .error e
  | .ok _ => .ok (.arr2 [o.resX], .arr1 [o.resFun])

/-- `scipy.optimize.minimize` with `method="L-BFGS-B"` and a callable
`jac`: it evaluates the objective and the gradient at `x0` (exceptions
propagate, as scipy runs the callbacks synchronously) and reports the
oracle's result. -/
def scipy_minimize (func : List ℚ → Except PyError (List ℚ))
    (jac : List ℚ → Except PyError (List ℚ)) (x0 : List ℚ)
    (o : MinimizeOracle) : Except PyError MinimizeOracle :=
  match func x0 with
  | .error e => .error e
  | .ok _ =>
    match jac x0 with
    | .error e => .error e
    | .ok _ => .ok o

/-- Python/numpy truthiness of `if optimization_x0:` on an array: empty is
falsy, a single element compares against zero, more than one element is a
`ValueError`. -/
def npTruthy (x : XIn) : Except PyError Bool :=
  match (match x with | .one v => v | .two m => m.flatten) with
  | [] => .ok false
  | [q] => .ok (decide (q ≠ 0))
  | _ => .error (.valueError
      "The truth value of an array with more than one element is ambiguous")

/-- `np.asarray` of a Python list of result vectors: the empty list gives
an empty 1-D array (as numpy does), a list of equal-length vectors a 2-D
array. -/
def npAsarrayRows (rows : Mat) : NpArr :=
  match rows with
  | [] => .arr1 []
  | r :: rest =>
    if rest.all (fun q => q.length = r.length) then .arr2 (r :: rest)
    else .arr1 []

/-- The final result-shape check (surrogate_model.py lines 140-145):
`if np.ndim(func_eval) != 1 or np.ndim(opti) != 2: raise Exception(...)`. -/
def shape_check (func_eval opti : NpArr) : Except PyError Unit :=
  if func_eval.ndim ≠ 1 ∨ opti.ndim ≠ 2 then
    .error (.exception
      "The output of the acquisition function optimization dim (f) != 1 or dim(x) != 2. Please check your acquisition function. It should return a 1-d numpy array")
  else .ok ()

/-- `find_acquisition_function_maxima` (surrogate_model.py lines 15-146),
the acquisition-optimizer dispatcher.  `candidate_set` is the truthiness of
the supplied candidate set (default `{}` is falsy); `devoO`, `hgdlO`,
`minO` are the external optimizers' oracles; `randO` is the value of the
`np.random.uniform` starting point drawn in the `"local"` branch.

Branches, in source order:
* a truthy `candidate_set` executes `random.choices(list(a), k=100)` where
  no name `a` is in scope — `NameError`;
* `"global"` runs `differential_evolution` and falls through to the shape
  check;
* `"hgdl"` builds the HGDL handle, takes the first
  `min(len(res), number_of_maxima_sought)` entries of `get_final()`,
  converts with `np.asarray`, and falls through to the shape check;
* `"hgdlAsync"` returns `0., 0., opt_obj` immediately, skipping the check;
* `"local"` picks `x0` (a 1-D `optimization_x0`, or the first row of a 2-D
  one, or the random draw) and calls `minimize` with `jac=grad`; on a
  reported failure lines 130-137 would substitute `x0` and re-evaluate the
  acquisition function — in that re-evaluation the source passes
  `cost_function` and `cost_function_parameters` positionally into the
  `number_of_maxima_sought` and `cost_function` slots, rendered here as
  `none`/`none`;
* any other method string raises `ValueError`. -/
def find_acquisition_function_maxima (gp : GP) (env : NumEnv)
    (acquisition_function : AcqFn) (origin : Option (List ℚ))
    (number_of_maxima_sought : Nat) (optimization_method : String)
    (optimization_x0 : Option XIn) (cost_function : Option CostFn)
    (cost_function_parameters : Params) (candidate_set : Bool)
    (x_out : Option (List ℚ)) (args : AcqArgs) (devoO : DevoOracle)
    (hgdlO : List HgdlEntry) (minO : MinimizeOracle) (randO : List ℚ) :
    Except PyError (NpArr × NpArr × Option Handle) :=
  let func : Mat → Except PyError (List ℚ) := fun m =>
    evaluate_acquisition_function (.two m) gp env acquisition_function origin
      (some number_of_maxima_sought) cost_function cost_function_parameters
      x_out args
  let func1 : List ℚ → Except PyError (List ℚ) := fun v =>
    evaluate_acquisition_function (.one v) gp env acquisition_function origin
      (some number_of_maxima_sought) cost_function cost_function_parameters
      x_out args
  if candidate_set then
    .error (.nameError "name a is not defined")
  else if optimization_method = "global" then
    match differential_evolution func devoO with
    | .error e => .error e
    | .ok (opti, func_eval) =>
      match shape_check func_eval opti with
      | .error e => .error e
      | .ok _ => .ok (opti, func_eval, none)
  else if optimization_method = "hgdl" then
    match (match optimization_x0 with
           | none => Except.ok ()
           | some x0 =>
             match npTruthy x0 with
             | .error e => .error e
             | .ok _ => .ok ()) with
    | .error e => .error e
    | .ok _ =>
      let res := hgdlO.take number_of_maxima_sought
      let opti := npAsarrayRows (res.map HgdlEntry.x)
      let func_eval := NpArr.arr1 (res.map HgdlEntry.fx)
      match shape_check func_eval opti with
      | .error e => .error e
      | .ok _ => .ok (opti, func_eval, some .hgdlHandle)
  else if optimization_method = "hgdlAsync" then
    match (match optimization_x0 with
           | none => Except.ok ()
           | some x0 =>
             match npTruthy x0 with
             | .error e => .error e
             | .ok _ => .ok ()) with
    | .error e => .error e
    | .ok _ => .ok (.scalar 0, .scalar 0, some .hgdlHandle)
  else if optimization_method = "local" then
    match (match optimization_x0 with
           | some (.one v) => Except.ok v
           | some (.two m) =>
             match m.head? with
             | some r => Except.ok r
             | none => Except.error (PyError.indexError "index 0 is out of bounds")
           | none => Except.ok randO) with
    | .error e => .error e
    | .ok x0 =>
      match scipy_minimize func1 (fun v => gradient v func1) x0 minO with
      | .error e => .error e
      | .ok a =>
        let opti := NpArr.arr2 [a.resX]
        let func_eval := NpArr.arr1 [a.resFun]
        match (if a.success = false then
                 match evaluate_acquisition_function (.one x0) gp env
                     acquisition_function origin none none [] none
                     { aVal := none, bVal := none } with
                 | .error e => Except.error e
                 | .ok fe => Except.ok (NpArr.arr2 [x0], NpArr.arr1 fe)
               else Except.ok (opti, func_eval)) with
        | .error e => .error e
        | .ok (opti2, fe2) =>
          match shape_check fe2 opti2 with
          | .error e => .error e
          | .ok _ => .ok (opti2, fe2, none)
  else .error (.valueError "Invalid acquisition function optimization method given.")

/-! ## The autonomous loop (`AutonomousExperimenterGP`)

The loop body of `go()` is a sequence of decisions on plain data; the
decision sites named by the claims are embedded as the pure functions they
compute, with the surrounding I/O (instrument, dask, logging) elided. -/

/-- Lines 436-437 of autonomous_experimenter.py:
`local_method = acq_func_opt_setting(i)` followed by
`if number_of_suggested_measurements > 1 and local_method != "hgdl":
local_method = "global"`. -/
def choose_acq_method (acq_func_opt_setting : Nat → String) (i : Nat)
    (number_of_suggested_measurements : Nat) : String :=
  let local_method := acq_func_opt_setting i
  if number_of_suggested_measurements > 1 ∧ local_method ≠ "hgdl" then "global"
  else local_method

/-- Lines 466-468 of autonomous_experimenter.py:
`if acq_func_opt_tol_adjust: acq_func_opt_tol = abs(func_evals[0]) *
acq_func_opt_tol_adjust`.  The guard is Python truthiness of the float
adjust factor (false exactly at `0.0`); `func_evals[0]` on an empty array
is an `IndexError`. -/
def adjust_acq_tol (acq_func_opt_tol acq_func_opt_tol_adjust : ℚ)
    (func_evals : List ℚ) : Except PyError ℚ :=
  if acq_func_opt_tol_adjust ≠ 0 then
    match func_evals.head? with
    | some f0 => .ok (|f0| * acq_func_opt_tol_adjust)
    | none => .error (.indexError "index 0 is out of bounds")
  else .ok acq_func_opt_tol

/-- The async-training-handle state of an `AutonomousExperimenterGP`:
`opt_obj` and `async_train_in_progress` are the object's attributes;
`live` models the background trainings started on the execution backend
and not yet cancelled (newest first), each named by a fresh id drawn from
`next_id`. -/
structure TrainState where
  live : List Nat
  opt_obj : Option Nat
  async_train_in_progress : Bool
  next_id : Nat
deriving DecidableEq, Repr

/-- The state after `__init__` (line 163 sets
`async_train_in_progress = False`; no training exists yet). -/
def TrainState.initial : TrainState :=
  { live := [], opt_obj := none, async_train_in_progress := false, next_id := 0 }

/-- `train_async` (lines 256-293): unconditionally starts a new background
training, stores its handle in `self.opt_obj` (overwriting any previous
one without stopping it) and sets `async_train_in_progress = True`. -/
def train_async (s : TrainState) : TrainState :=
  { live := s.next_id :: s.live, opt_obj := some s.next_id,
    async_train_in_progress := true, next_id := s.next_id + 1 }

/-- `kill_training` (lines 295-303): if a training is flagged in progress,
stop the training referenced by `self.opt_obj` and clear the flag;
otherwise log and do nothing. -/
def kill_training (s : TrainState) : TrainState :=
  if s.async_train_in_progress then
    { s with
      live := match s.opt_obj with
              | some h => s.live.erase h
              | none => s.live,
      async_train_in_progress := false }
  else s

/-- The four retraining actions the scheduler step of `go()` can select
(lines 498-520): start async training after killing the current one, run
synchronous global training, run synchronous local training, or only
attempt a hyperparameter poll/update. -/
inductive TrainAction where
  | asyncRetrain
  | globalRetrain
  | localRetrain
  | pollUpdate
deriving DecidableEq, Repr

/-- The schedule test
`any(n in schedule for n in range(n_measurements, len(self.x_data)))`:
some newly reached measurement count in `[before, after)` lies in the
schedule. -/
def schedule_hit (schedule : List Nat) (before after : Nat) : Bool :=
  (List.range' before (after - before)).any (fun n => decide (n ∈ schedule))

/-- The retraining selection of `go()` (lines 498-520): the `if`/`elif`
chain over the async, global and local schedules, each conjoined with
`n_measurements < N`, with the hyperparameter poll as the final `else`. -/
def retrain_decision (retrain_async_at retrain_globally_at
    retrain_locally_at : List Nat) (n_measurements new_count N : Nat) :
    TrainAction :=
  if schedule_hit retrain_async_at n_measurements new_count = true ∧
      n_measurements < N then .asyncRetrain
  else if schedule_hit retrain_globally_at n_measurements new_count = true ∧
      n_measurements < N then .globalRetrain
  else if schedule_hit retrain_locally_at n_measurements new_count = true ∧
      n_measurements < N then .localRetrain
  else .pollUpdate

/-- The effect of each retraining action on the async-training state:
the async branch is `self.kill_training()` then `self.train_async(...)`
(lines 501-503); the synchronous branches call `self.kill_training()` and
then block in `self.train(...)`, which touches no handle (lines 505-517);
the poll branch (`self.update_hps()`) only reads (lines 519-520). -/
def apply_retrain_action : TrainAction → TrainState → TrainState
  | .asyncRetrain, s => train_async (kill_training s)
  | .globalRetrain, s => kill_training s
  | .localRetrain, s => kill_training s
  | .pollUpdate, s => s

/-! ## Specification-side predicates and concrete instances -/

/-- The spec's reading of the schedule test: some measurement count in the
half-open interval `[before, after)` lies in the schedule. -/
def interval_hits (schedule : List Nat) (before after : Nat) : Prop :=
  ∃ n, before ≤ n ∧ n < after ∧ n ∈ schedule

/-- The "goodness" quantity of the selected acquisition strategy: the user
callable evaluated directly, or the built-in kind through
`evaluate_gp_acquisition_function`. -/
def acquisition_goodness (x2 : Mat) (gp : GP) (env : NumEnv) (acq : AcqFn)
    (number_of_maxima_sought : Option Nat) (x_out : Option (List ℚ))
    (args : AcqArgs) : Except PyError (List ℚ) :=
  match acq with
  | .callable f => .ok (f x2 gp)
  | .kind s =>
    evaluate_gp_acquisition_function x2 s gp env number_of_maxima_sought
      x_out args

/-- The kind strings accepted by `evaluate_gp_acquisition_function`
(every kind of the `x_out is None` branch; the multi-output branch accepts
a subset of these). -/
def builtin_acquisition_kinds : List String :=
  ["variance", "relative information entropy",
   "relative information entropy set", "ucb", "lcb", "maximum", "gradient",
   "minimum", "probability of improvement", "total correlation",
   "expected improvement", "target probability"]

/-- The optimization-method strings accepted by the dispatcher. -/
def builtin_optimization_methods : List String :=
  ["global", "hgdl", "hgdlAsync", "local"]

/-- A well-formed async-training state: the live background trainings are
exactly the stored handle when the in-progress flag is set, and none
otherwise. -/
def TrainState.wellFormed (s : TrainState) : Prop :=
  s.live = (if s.async_train_in_progress then s.opt_obj.toList else [])

/-- A trivial surrogate collaborator for concrete evaluations: posterior
mean 0 and variance 1 at every input. -/
def gp0 : GP :=
  { posterior_mean := fun m => m.map (fun _ => 0),
    posterior_variance := fun m => m.map (fun _ => 1),
    posterior_mean_grad := fun m => m,
    gp_rie := fun _ => 0,
    gp_rie_set := fun m => m.map (fun _ => 0),
    gp_total_correlation := fun _ => 0,
    y_data := [0] }

/-- Identity math primitives for concrete evaluations. -/
def env0 : NumEnv :=
  { sqrt := fun t => t, normCdf := fun t => t, normPdf := fun t => t,
    erf := fun t => t }

/-- A concrete differential-evolution oracle. -/
def devo0 : DevoOracle := { probe := [[0]], resX := [0], resFun := 2 }

/-- A concrete local-optimizer oracle reporting success. -/
def min0 : MinimizeOracle := { resX := [0], resFun := 0, success := true }

/-- An empty `args` dict. -/
def args0 : AcqArgs := { aVal := none, bVal := none }

/-- A constant user cost function returning 2. -/
def costFn2 : CostFn := fun _ _ _ => 2

/-! ## Helper lemmas -/

/-- The boolean schedule test of `go()` agrees with the spec's half-open
interval reading. -/
theorem schedule_hit_iff (S : List Nat) (b a : Nat) :
    schedule_hit S b a = true ↔ interval_hits S b a := by
  unfold schedule_hit interval_hits
  rw [List.any_eq_true]
  constructor
  · rintro ⟨n, hmem, hdec⟩
    rw [List.mem_range'_1] at hmem
    exact ⟨n, hmem.1, by omega, of_decide_eq_true hdec⟩
  · rintro ⟨n, hb, ha, hS⟩
    exact ⟨n, List.mem_range'_1.mpr ⟨hb, by omega⟩, decide_eq_true hS⟩

/-- A passed shape check certifies a 2-D position array and a 1-D score
array. -/
theorem shape_check_ok (func_eval opti : NpArr) (u : Unit)
    (h : shape_check func_eval opti = .ok u) :
    opti.ndim = 2 ∧ func_eval.ndim = 1 := by
  unfold shape_check at h
  split at h
  · exact absurd h (by simp)
  · rename_i hcond
    push_neg at hcond
    exact ⟨hcond.2, hcond.1⟩

/-! ## Claims -/

/-- C6: in every iteration of `go()`, if more than one measurement is
requested and the caller-supplied mapping does not choose the hybrid
method `"hgdl"`, the method used for the `ask()` call is forced to
`"global"` (autonomous_experimenter.py lines 436-437). -/
theorem C6_force_global (acq_func_opt_setting : Nat → String) (i n : Nat)
    (h1 : 1 < n) (h2 : acq_func_opt_setting i ≠ "hgdl") :
    choose_acq_method acq_func_opt_setting i n = "global" := by
  simp [choose_acq_method, h1, h2]

/-- Witness for C6 at a concrete mapping that returns `"local"` with two
requested measurements. -/
theorem C6_force_global_witness :
    choose_acq_method (fun _ => "local") 0 2 = "global" :=
  C6_force_global (fun _ => "local") 0 2 (by norm_num) (by decide)

/-- C9 (counterexample): with adjust factor `0.0` the tolerance is left
unchanged by lines 466-468 of autonomous_experimenter.py — it is not set
to `|score_best| * 0 = 0` as the claim's unconditional reading demands. -/
theorem C9_adjust_zero_counterexample :
    adjust_acq_tol 1 0 [5] = .ok 1 ∧ (1 : ℚ) ≠ |(5 : ℚ)| * 0 := by
  constructor
  · rfl
  · norm_num

/-- C9 (amended): whenever the adjust factor is nonzero (truthy), the
tolerance for the next iteration is set to the absolute value of the first
(best) returned score times the adjust factor; a zero adjust factor leaves
the tolerance unchanged. -/
theorem C9_tol_update_amended (tol adj f0 : ℚ) (rest : List ℚ)
    (h : adj ≠ 0) :
    adjust_acq_tol tol adj (f0 :: rest) = .ok (|f0| * adj) := by
  simp [adjust_acq_tol, h]

/-- Witness for the amended C9 at tolerance 1, adjust factor 1/10 and best
score 5. -/
theorem C9_tol_update_amended_witness :
    adjust_acq_tol 1 (1 / 10) [5, 7] = .ok (|(5 : ℚ)| * (1 / 10)) :=
  C9_tol_update_amended 1 (1 / 10) 5 [7] (by norm_num)

/-- C10: a 1-D position vector is promoted to a single-row 2-D batch
before cost and acquisition evaluation, so `evaluate_acquisition_function`
returns the same result on `x` and on `[[x]]`. -/
theorem C10_one_dim_promotion (v : List ℚ) (gp : GP) (env : NumEnv)
    (acq : AcqFn) (origin : Option (List ℚ))
    (number_of_maxima_sought : Option Nat) (cf : Option CostFn)
    (cfp : Params) (x_out : Option (List ℚ)) (args : AcqArgs) :
    evaluate_acquisition_function (.one v) gp env acq origin
        number_of_maxima_sought cf cfp x_out args =
      evaluate_acquisition_function (.two [v]) gp env acq origin
        number_of_maxima_sought cf cfp x_out args := rfl

/-- C8 (code bug): a truthy candidate set makes the dispatcher execute
`random.choices(list(a), k=100)` (surrogate_model.py line 50) where no
name `a` exists, so the branch raises `NameError` instead of scoring the
candidate sample. -/
theorem C8_candidate_set_name_error (gp : GP) (env : NumEnv) (acq : AcqFn)
    (origin : Option (List ℚ)) (k : Nat) (m : String) (x0 : Option XIn)
    (cf : Option CostFn) (cfp : Params) (x_out : Option (List ℚ))
    (args : AcqArgs) (devoO : DevoOracle) (hgdlO : List HgdlEntry)
    (minO : MinimizeOracle) (randO : List ℚ) :
    find_acquisition_function_maxima gp env acq origin k m x0 cf cfp true
        x_out args devoO hgdlO minO randO =
      .error (.nameError "name a is not defined") := rfl

/-- C3 (code bug): with `optimization_method="local"` the dispatcher hands
`jac=grad` to the local solver, and the `gradient` helper
(surrogate_model.py lines 266-273) raises `NameError` on its first call
because its body reads the undefined names `point` and `function`; the
non-convergence fallback of lines 130-137 is therefore unreachable and
every local optimization aborts with `NameError` instead of recovering. -/
theorem C3_local_gradient_name_error (gp : GP) (env : NumEnv)
    (origin : Option (List ℚ)) (k : Nat) (cf : Option CostFn) (cfp : Params)
    (args : AcqArgs) (devoO : DevoOracle) (hgdlO : List HgdlEntry)
    (minO : MinimizeOracle) (randO : List ℚ) :
    find_acquisition_function_maxima gp env (.kind "variance") origin k
        "local" none cf cfp false none args devoO hgdlO minO randO =
      .error (.nameError "name point is not defined") := rfl

/-- C5 (counterexample): calling `train_async` a second time without an
intervening `kill_training` is neither prevented nor collapses to a single
active handle — the first background training stays live (and is no longer
reachable through `opt_obj`), so two trainings are live at once. -/
theorem C5_double_train_async_counterexample :
    (train_async (train_async TrainState.initial)).live = [1, 0] ∧
    (train_async (train_async TrainState.initial)).live.length = 2 ∧
    (train_async (train_async TrainState.initial)).opt_obj = some 1 ∧
    (train_async (train_async TrainState.initial)).async_train_in_progress
      = true := by
  refine ⟨rfl, rfl, rfl, rfl⟩

/-- C5 (amended): `train_async` itself does not enforce the single-handle
invariant; the kill-then-start discipline that `go()` follows (every
`train_async` immediately preceded by `kill_training`, lines 501-503) does:
from any well-formed state, `kill_training` leaves no live training and the
subsequent `train_async` leaves exactly the one new training live. -/
theorem C5_kill_then_start_single_live (s : TrainState)
    (h : s.wellFormed) :
    (kill_training s).live = [] ∧
    (train_async (kill_training s)).wellFormed ∧
    (train_async (kill_training s)).live.length = 1 := by
  obtain ⟨live, obj, prog, nid⟩ := s
  unfold TrainState.wellFormed at h
  cases prog <;> cases obj <;>
    simp_all [kill_training, train_async, TrainState.wellFormed]

/-- Witness for the amended C5, starting from the state after one
`train_async` from the initial state. -/
theorem C5_kill_then_start_single_live_witness :
    (kill_training (train_async TrainState.initial)).live = [] ∧
    (train_async (kill_training (train_async TrainState.initial))).wellFormed ∧
    (train_async (kill_training (train_async TrainState.initial))).live.length
      = 1 :=
  C5_kill_then_start_single_live (train_async TrainState.initial) (by rfl)

/-- C2: each `go()` iteration selects exactly one retraining action by
testing the half-open interval `[measurements_before, measurements_after)`
of newly arrived measurement counts against the three schedules, with
fixed priority async > global > local > poll (under the loop guard
`n_measurements < N`). -/
theorem C2_retrain_priority (aS gS lS : List Nat) (b a N : Nat)
    (hbN : b < N) :
    (retrain_decision aS gS lS b a N = .asyncRetrain ↔
      interval_hits aS b a) ∧
    (retrain_decision aS gS lS b a N = .globalRetrain ↔
      ¬interval_hits aS b a ∧ interval_hits gS b a) ∧
    (retrain_decision aS gS lS b a N = .localRetrain ↔
      ¬interval_hits aS b a ∧ ¬interval_hits gS b a ∧
        interval_hits lS b a) ∧
    (retrain_decision aS gS lS b a N = .pollUpdate ↔
      ¬interval_hits aS b a ∧ ¬interval_hits gS b a ∧
        ¬interval_hits lS b a) := by
  unfold retrain_decision
  by_cases h1 : interval_hits aS b a <;>
    by_cases h2 : interval_hits gS b a <;>
      by_cases h3 : interval_hits lS b a <;>
        simp [schedule_hit_iff, h1, h2, h3, hbN]

/-- Witness for C2: an interval hitting both the async and the global
schedule selects the async retraining. -/
theorem C2_retrain_priority_witness :
    (retrain_decision [5] [5, 6] [] 4 6 100 = .asyncRetrain ↔
      interval_hits [5] 4 6) ∧
    (retrain_decision [5] [5, 6] [] 4 6 100 = .globalRetrain ↔
      ¬interval_hits [5] 4 6 ∧ interval_hits [5, 6] 4 6) ∧
    (retrain_decision [5] [5, 6] [] 4 6 100 = .localRetrain ↔
      ¬interval_hits [5] 4 6 ∧ ¬interval_hits [5, 6] 4 6 ∧
        interval_hits [] 4 6) ∧
    (retrain_decision [5] [5, 6] [] 4 6 100 = .pollUpdate ↔
      ¬interval_hits [5] 4 6 ∧ ¬interval_hits [5, 6] 4 6 ∧
        ¬interval_hits [] 4 6) :=
  C2_retrain_priority [5] [5, 6] [] 4 6 100 (by norm_num)

/-- C4: for every candidate batch, `evaluate_acquisition_function` returns
the negated goodness of the selected acquisition strategy divided by the
cost, the cost being `cost_function(origin, x, cost_function_parameters)`
when both a cost function and an origin are supplied and `1.0`
otherwise. -/
theorem C4_negated_goodness_over_cost (x : XIn) (gp : GP) (env : NumEnv)
    (acq : AcqFn) (origin : Option (List ℚ))
    (number_of_maxima_sought : Option Nat) (cf : Option CostFn)
    (cfp : Params) (x_out : Option (List ℚ)) (args : AcqArgs) (g : List ℚ)
    (h : acquisition_goodness x.promote gp env acq number_of_maxima_sought
      x_out args = .ok g) :
    evaluate_acquisition_function x gp env acq origin
        number_of_maxima_sought cf cfp x_out args =
      .ok (g.map (fun t => -t /
        (match cf, origin with
         | some c, some o => c o x.promote cfp
         | _, _ => 1))) := by
  cases acq with
  | callable f =>
    simp only [acquisition_goodness, Except.ok.injEq] at h
    cases cf <;> cases origin <;>
      simp [evaluate_acquisition_function, h]
  | kind s =>
    simp only [acquisition_goodness] at h
    cases cf <;> cases origin <;>
      simp [evaluate_acquisition_function, h]

/-- Witness for C4: the `"variance"` kind at a one-point batch with a
constant cost function 2 and an origin supplied yields `-1/2`. -/
theorem C4_negated_goodness_over_cost_witness :
    evaluate_acquisition_function (.two [[0]]) gp0 env0 (.kind "variance")
        (some [0]) none (some costFn2) [] none args0 =
      .ok ([1].map (fun t => -t /
        (match (some costFn2 : Option CostFn),
            (some [0] : Option (List ℚ)) with
         | some c, some o => c o (XIn.two [[(0 : ℚ)]]).promote []
         | _, _ => 1))) :=
  C4_negated_goodness_over_cost (.two [[0]]) gp0 env0 (.kind "variance")
    (some [0]) none (some costFn2) [] none args0 [1] (by rfl)

/-- C7: a kind string outside the built-in list makes the acquisition
evaluator fail fatally at the call site (the raise at surrogate_model.py
lines 228/244, the spec's ConfigurationError category) with no score
returned, and a method string outside the dispatcher's list fails fatally
with the raise at line 139. -/
theorem C7_unknown_kind_and_method (s m : String)
    (hs : s ∉ builtin_acquisition_kinds)
    (hm : m ∉ builtin_optimization_methods) (x : Mat) (gp : GP)
    (env : NumEnv) (number_of_maxima_sought : Option Nat)
    (x_out : Option (List ℚ)) (args : AcqArgs) (acq : AcqFn)
    (origin : Option (List ℚ)) (k : Nat) (x0 : Option XIn)
    (cf : Option CostFn) (cfp : Params) (devoO : DevoOracle)
    (hgdlO : List HgdlEntry) (minO : MinimizeOracle) (randO : List ℚ) :
    evaluate_gp_acquisition_function x s gp env number_of_maxima_sought
        x_out args =
      .error (.exception "No valid acquisition function string provided.") ∧
    find_acquisition_function_maxima gp env acq origin k m x0 cf cfp false
        x_out args devoO hgdlO minO randO =
      .error (.valueError
        "Invalid acquisition function optimization method given.") := by
  simp only [builtin_acquisition_kinds, List.mem_cons,
    List.not_mem_nil, or_false] at hs
  simp only [builtin_optimization_methods, List.mem_cons,
    List.not_mem_nil, or_false] at hm
  push_neg at hs hm
  obtain ⟨h1, h2, h3, h4, h5, h6, h7, h8, h9, h10, h11, h12⟩ := hs
  obtain ⟨m1, m2, m3, m4⟩ := hm
  constructor
  · cases x_out <;>
      simp [evaluate_gp_acquisition_function, h1, h2, h3, h4, h5, h6, h7,
        h8, h9, h10, h11, h12]
  · simp [find_acquisition_function_maxima, m1, m2, m3, m4]

/-- Witness for C7 with the unknown kind `"entropy"` and the unknown
method `"simulated annealing"`. -/
theorem C7_unknown_kind_and_method_witness :
    evaluate_gp_acquisition_function [[0]] "entropy" gp0 env0 none none
        args0 =
      .error (.exception "No valid acquisition function string provided.") ∧
    find_acquisition_function_maxima gp0 env0 (.kind "variance") none 1
        "simulated annealing" none none [] false none args0 devo0 [] min0
        [0] =
      .error (.valueError
        "Invalid acquisition function optimization method given.") :=
  C7_unknown_kind_and_method "entropy" "simulated annealing" (by decide)
    (by decide) [[0]] gp0 env0 none none args0 (.kind "variance") none 1
    none none [] devo0 [] min0 [0]

/-- C1 (counterexample): with `optimization_method="hgdlAsync"` the
dispatcher returns the scalar placeholders `0., 0.` together with the
handle and returns before the rank check (surrogate_model.py lines
105-107), so the returned positions are rank 0, not a 2-D k-by-D
structure, and no shape error aborts the call. -/
theorem C1_hgdlAsync_counterexample :
    find_acquisition_function_maxima gp0 env0 (.kind "variance") none 1
        "hgdlAsync" none none [] false none args0 devo0 [] min0 [0] =
      .ok (.scalar 0, .scalar 0, some .hgdlHandle) ∧
    (NpArr.scalar 0).ndim = 0 := ⟨rfl, rfl⟩

/-- C1 (amended): for the methods `"global"`, `"local"` and `"hgdl"` every
normally returned result passes the rank check — positions 2-D, scores
1-D — with a wrong rank aborting the call through the fatal shape error of
lines 140-145; `"hgdlAsync"` instead returns scalar placeholders without
the check, and a supplied candidate set aborts with a `NameError` before
producing any result. -/
theorem C1_result_shape_amended (gp : GP) (env : NumEnv) (acq : AcqFn)
    (origin : Option (List ℚ)) (k : Nat) (m : String) (x0 : Option XIn)
    (cf : Option CostFn) (cfp : Params) (x_out : Option (List ℚ))
    (args : AcqArgs) (devoO : DevoOracle) (hgdlO : List HgdlEntry)
    (minO : MinimizeOracle) (randO : List ℚ) (opti func_eval : NpArr)
    (hd : Option Handle)
    (hm : m = "global" ∨ m = "local" ∨ m = "hgdl")
    (hres : find_acquisition_function_maxima gp env acq origin k m x0 cf
      cfp false x_out args devoO hgdlO minO randO =
        .ok (opti, func_eval, hd)) :
    opti.ndim = 2 ∧ func_eval.ndim = 1 := by
  rcases hm with rfl | rfl | rfl <;>
  · simp only [find_acquisition_function_maxima, String.reduceEq, reduceIte] at hres
    repeat' split at hres
    all_goals
      first
        | exact Except.noConfusion hres
        | (injection hres with h0
           injection h0 with h1 h23
           injection h23 with h2 h3
           subst h1
           subst h2
           exact shape_check_ok _ _ () (by assumption))

/-- Witness for the amended C1: the `"global"` method on the trivial
surrogate returns a 1-by-1 position array and a length-1 score array. -/
theorem C1_result_shape_amended_witness :
    (NpArr.arr2 [[(0 : ℚ)]]).ndim = 2 ∧ (NpArr.arr1 [(2 : ℚ)]).ndim = 1 :=
  C1_result_shape_amended gp0 env0 (.kind "variance") none 1 "global" none
    none [] none args0 devo0 [] min0 [0] (.arr2 [[0]]) (.arr1 [2]) none
    (Or.inl rfl) (by rfl)

end GpCam
